import Mathlib

/-!
Verification of the Oracle EPM orchestrator / MCP tooling repository.

The definitions below are a shallow embedding of the Python sources:
  * `redact` from `PBCS_MCP/epm_mcp_readonly_dualbase.py` (identical copies in
    `pbcs_copilot_mcp_real.py` and `epm_mcp_readonly.py`),
  * `http_get` / `epm_get_dualbase` / `epm_get_status` from
    `PBCS_MCP/epm_mcp_readonly_dualbase.py`,
  * `TokenCache` / `get_oauth_token` from `PBCS_MCP/pbcs_copilot_mcp_real.py`,
  * the job watch loop from `PBCS_MCP/pbcs_mcp_readonly.py` and
    `PBCS_MCP/pbcs_copilot_mcp_real.py`,
  * the Claude tool-use orchestration loop from
    `EPM_Orchestrator/epm_orchestrator_gui.py` and
    `PBCS_MCP/orchestrator_claude_mcp_epm.py`.

JSON values are modelled by the inductive `JVal`; Python dicts become
association lists, Python truthiness becomes `jtruthy`, and the Python
`a or b` expression becomes `pyOrV`.  External HTTP traffic is modelled by
oracle functions passed as parameters; functions that perform network calls
additionally return the list of URLs they requested, in order, so that
"never calls" properties are expressible.
-/

/-- JSON-like values: the payloads handled by the Python sources. -/
inductive JVal where
  | str (s : String)
  | num (n : Int)
  | bool (b : Bool)
  | null
  | arr (xs : List JVal)
  | obj (fields : List (String × JVal))

/-- Python truthiness of a JSON value (`""`, `0`, `False`, `None`, `[]`, `{}`
are falsy). -/
def jtruthy : JVal → Bool
  | .str s => s ≠ ""
  | .num n => n ≠ 0
  | .bool b => b
  | .null => false
  | .arr xs => !xs.isEmpty
  | .obj fs => !fs.isEmpty

/-- Python `a or b` on JSON values: the first operand if truthy, else the
second. -/
def pyOrV (a b : JVal) : JVal := if jtruthy a then a else b

/-- Python `d.get(k)` on a dict modelled as an association list; an absent key
yields `None`, i.e. `JVal.null`. -/
def dictGet (fs : List (String × JVal)) (k : String) : JVal :=
  match fs.find? (fun kv => kv.1 = k) with
  | some kv => kv.2
  | none => .null

/-- Python `s.lower()` (ASCII range, the only case occurring in the sources),
implemented over the character list so it evaluates by `decide`/`rfl`. -/
def pyLower (s : String) : String := ⟨s.data.map Char.toLower⟩

/-- Python `s.upper()` (ASCII range). -/
def pyUpper (s : String) : String := ⟨s.data.map Char.toUpper⟩

/-- Python `s.strip()`: drop leading and trailing whitespace. -/
def pyStrip (s : String) : String :=
  ⟨((s.data.dropWhile Char.isWhitespace).reverse.dropWhile Char.isWhitespace).reverse⟩

/-- `pat` is a prefix of `s` (on character lists). -/
def isPrefixList : List Char → List Char → Bool
  | [], _ => true
  | _ :: _, [] => false
  | p :: ps, c :: s => p = c && isPrefixList ps s

/-- `pat` occurs as a contiguous substring of `s` (on character lists). -/
def hasSub (s pat : List Char) : Bool :=
  match s with
  | [] => pat.isEmpty
  | _ :: rest => isPrefixList pat s || hasSub rest pat

/-- Python's substring test `pat in s` on strings. -/
def pyIn (pat s : String) : Bool := hasSub s.data pat.data

/-- `REDACT_KEYS` from the sources (same five keys in all three copies). -/
def REDACT_KEYS : List String :=
  ["password", "authorization", "access_token", "client_secret", "secret"]

mutual

/-- `redact` from the sources: replace the value of any dict entry whose
lowercased key is in `REDACT_KEYS` with the fixed marker, recursing into
other dict values and into list elements. -/
def redact : JVal → JVal
  | .obj fs => .obj (redactFields fs)
  | .arr xs => .arr (redactList xs)
  | .str s => .str s
  | .num n => .num n
  | .bool b => .bool b
  | .null => .null

/-- The list comprehension `[redact(x) for x in obj]` of the source. -/
def redactList : List JVal → List JVal
  | [] => []
  | x :: xs => redact x :: redactList xs

/-- The dict loop of the source's `redact`. -/
def redactFields : List (String × JVal) → List (String × JVal)
  | [] => []
  | (k, v) :: fs =>
      (k, if REDACT_KEYS.contains (pyLower k) then JVal.str "***REDACTED***"
          else redact v) :: redactFields fs

end

/-- Tests that a value is exactly the redaction marker string. -/
def isMarker : JVal → Bool
  | .str s => s = "***REDACTED***"
  | _ => false

mutual

/-- A value is fully redacted: every dict entry with a sensitive key, at any
nesting depth, holds the marker, and all other entries are recursively
redacted. -/
def isRedacted : JVal → Bool
  | .obj fs => isRedactedFields fs
  | .arr xs => isRedactedList xs
  | .str _ => true
  | .num _ => true
  | .bool _ => true
  | .null => true

def isRedactedList : List JVal → Bool
  | [] => true
  | x :: xs => isRedacted x && isRedactedList xs

def isRedactedFields : List (String × JVal) → Bool
  | [] => true
  | (k, v) :: fs =>
      (if REDACT_KEYS.contains (pyLower k) then isMarker v else isRedacted v)
        && isRedactedFields fs

end

mutual

theorem redact_isRedacted : (x : JVal) → isRedacted (redact x) = true
  | .obj fs => by simp [redact, isRedacted, redactFields_isRedacted fs]
  | .arr xs => by simp [redact, isRedacted, redactList_isRedacted xs]
  | .str s => rfl
  | .num n => rfl
  | .bool b => rfl
  | .null => rfl

theorem redactList_isRedacted :
    (xs : List JVal) → isRedactedList (redactList xs) = true
  | [] => rfl
  | x :: xs => by
      simp [redactList, isRedactedList, redact_isRedacted x,
        redactList_isRedacted xs]

theorem redactFields_isRedacted :
    (fs : List (String × JVal)) → isRedactedFields (redactFields fs) = true
  | [] => rfl
  | (k, v) :: fs => by
      by_cases h : pyLower k ∈ REDACT_KEYS
      · simp [redactFields, isRedactedFields, h, isMarker,
          redactFields_isRedacted fs]
      · simp [redactFields, isRedactedFields, h, redact_isRedacted v,
          redactFields_isRedacted fs]

end

mutual

theorem redact_idem : (x : JVal) → redact (redact x) = redact x
  | .obj fs => by simp [redact, redactFields_idem fs]
  | .arr xs => by simp [redact, redactList_idem xs]
  | .str s => rfl
  | .num n => rfl
  | .bool b => rfl
  | .null => rfl

theorem redactList_idem :
    (xs : List JVal) → redactList (redactList xs) = redactList xs
  | [] => rfl
  | x :: xs => by simp [redactList, redact_idem x, redactList_idem xs]

theorem redactFields_idem :
    (fs : List (String × JVal)) → redactFields (redactFields fs) = redactFields fs
  | [] => rfl
  | (k, v) :: fs => by
      by_cases h : pyLower k ∈ REDACT_KEYS
      · simp [redactFields, h, redactFields_idem fs]
      · simp [redactFields, h, redact_idem v, redactFields_idem fs]

end

theorem redactFields_keys (fs : List (String × JVal)) :
    (redactFields fs).map Prod.fst = fs.map Prod.fst := by
  induction fs with
  | nil => rfl
  | cons kv fs ih =>
      obtain ⟨k, v⟩ := kv
      by_cases h : pyLower k ∈ REDACT_KEYS <;>
        simp [redactFields, h, ih]

/-- C4: `redact` replaces the value of every dict entry whose key
case-insensitively matches the sensitive set, at any nesting depth, with the
fixed marker (`isRedacted` holds of every output); it preserves the key
structure of every dict; and it is idempotent. -/
theorem c4_redact_total_idempotent (x : JVal) (fs : List (String × JVal)) :
    isRedacted (redact x) = true
      ∧ redact (redact x) = redact x
      ∧ (redactFields fs).map Prod.fst = fs.map Prod.fst :=
  ⟨redact_isRedacted x, redact_idem x, redactFields_keys fs⟩

/-! ## HTTP gateway and dual-base resolution
(`PBCS_MCP/epm_mcp_readonly_dualbase.py`) -/

/-- Outcome of one `requests.get` call: either a raised `RequestException`
or an HTTP response with status code, reason phrase and (already parsed)
JSON object body.  The network is an oracle mapping each URL to its
outcome. -/
inductive HttpResp where
  | exn (msg : String)
  | resp (status : Nat) (reason : String) (payload : List (String × JVal))

/-- The result dict built by `_http_get`; fields model the dict keys, with
`none` for keys the source does not put in the dict on that path. -/
structure GetResult where
  ok : Bool
  error : Option String
  statusCode : Option Nat
  message : Option JVal
  response : Option JVal
  url : String

/-- `_http_get` from `epm_mcp_readonly_dualbase.py`: classify the outcome of
one GET into `NETWORK_ERROR`, `HTTP_ERROR` (status >= 300) or `ok`, redacting
the payload on both response-bearing paths. -/
def http_get (fetch : String → HttpResp) (url : String) : GetResult :=
  match fetch url with
  | .exn m =>
      { ok := false, error := some "NETWORK_ERROR", statusCode := none,
        message := some (.str m), response := none, url := url }
  | .resp status reason payload =>
      if 300 ≤ status then
        { ok := false, error := some "HTTP_ERROR", statusCode := some status,
          message := some (pyOrV (dictGet payload "message")
            (pyOrV (dictGet payload "details") (.str reason))),
          response := some (redact (.obj payload)), url := url }
      else
        { ok := true, error := none, statusCode := some status,
          message := none, response := some (redact (.obj payload)),
          url := url }

/-- Value returned by `epm_get_dualbase`: the first result tagged
`base_used="base_url"`, the retry tagged `base_used="epmcloud_context"`, the
first result passed through untouched, or `{"ok": False, "attempts": [r1, r2]}`. -/
inductive DualResult where
  | tagged (r : GetResult) (baseUsed : String)
  | plain (r : GetResult)
  | attempts (r1 r2 : GetResult)

/-- `epm_get_dualbase`: GET against the canonical base; on 404 retry the same
interop path against the `/epmcloud` context base.  Also returns the list of
URLs actually requested, in order. -/
def epm_get_dualbase (fetch : String → HttpResp) (baseUrl interopPath : String) :
    DualResult × List String :=
  let url1 := baseUrl ++ interopPath
  let r1 := http_get fetch url1
  if r1.ok then (.tagged r1 "base_url", [url1])
  else if r1.statusCode = some 404 then
    let url2 := baseUrl ++ "/epmcloud" ++ interopPath
    let r2 := http_get fetch url2
    if r2.ok then (.tagged r2 "epmcloud_context", [url1, url2])
    else (.attempts r1 r2, [url1, url2])
  else (.plain r1, [url1])

/-- C3: dual-base resolution.  A success on the canonical base is returned
tagged `base_url` and the `/epmcloud` base is never requested; a 404 on the
canonical base followed by a success on the `/epmcloud` base is returned
tagged `epmcloud_context`; a 404 followed by a second failure yields the
`attempts` pair holding both results; any non-404 failure on the canonical
base (network error, or any HTTP status >= 300 other than 404) is returned
as-is with the `/epmcloud` base never requested. -/
theorem c3_dualbase_resolution (fetch : String → HttpResp) (base path : String) :
    (∀ s reason p, fetch (base ++ path) = .resp s reason p → s < 300 →
        epm_get_dualbase fetch base path
          = (.tagged (http_get fetch (base ++ path)) "base_url", [base ++ path]))
    ∧ (∀ reason p, fetch (base ++ path) = .resp 404 reason p →
        (http_get fetch (base ++ "/epmcloud" ++ path)).ok = true →
        epm_get_dualbase fetch base path
          = (.tagged (http_get fetch (base ++ "/epmcloud" ++ path)) "epmcloud_context",
             [base ++ path, base ++ "/epmcloud" ++ path]))
    ∧ (∀ reason p, fetch (base ++ path) = .resp 404 reason p →
        (http_get fetch (base ++ "/epmcloud" ++ path)).ok = false →
        epm_get_dualbase fetch base path
          = (.attempts (http_get fetch (base ++ path))
              (http_get fetch (base ++ "/epmcloud" ++ path)),
             [base ++ path, base ++ "/epmcloud" ++ path]))
    ∧ (∀ m, fetch (base ++ path) = .exn m →
        epm_get_dualbase fetch base path
          = (.plain (http_get fetch (base ++ path)), [base ++ path]))
    ∧ (∀ s reason p, fetch (base ++ path) = .resp s reason p → 300 ≤ s → s ≠ 404 →
        epm_get_dualbase fetch base path
          = (.plain (http_get fetch (base ++ path)), [base ++ path])) := by
  refine ⟨?_, ?_, ?_, ?_, ?_⟩
  · intro s reason p hf hs
    have h1ok : (http_get fetch (base ++ path)).ok = true := by
      have : ¬ (300 ≤ s) := by omega
      simp [http_get, hf, this]
    simp [epm_get_dualbase, h1ok]
  · intro reason p hf hok
    have h1ok : (http_get fetch (base ++ path)).ok = false := by simp [http_get, hf]
    have h1sc : (http_get fetch (base ++ path)).statusCode = some 404 := by
      simp [http_get, hf]
    simp [epm_get_dualbase, h1ok, h1sc, hok]
  · intro reason p hf hok
    have h1ok : (http_get fetch (base ++ path)).ok = false := by simp [http_get, hf]
    have h1sc : (http_get fetch (base ++ path)).statusCode = some 404 := by
      simp [http_get, hf]
    simp [epm_get_dualbase, h1ok, h1sc, hok]
  · intro m hf
    have h1ok : (http_get fetch (base ++ path)).ok = false := by simp [http_get, hf]
    have h1sc : (http_get fetch (base ++ path)).statusCode = none := by
      simp [http_get, hf]
    simp [epm_get_dualbase, h1ok, h1sc]
  · intro s reason p hf hs hne
    have h1ok : (http_get fetch (base ++ path)).ok = false := by simp [http_get, hf, hs]
    have h1sc : (http_get fetch (base ++ path)).statusCode = some s := by
      simp [http_get, hf, hs]
    simp [epm_get_dualbase, h1ok, h1sc, hne]

/-- A fixed network oracle used to witness `c3_dualbase_resolution`: the
canonical status URL answers 404, the `/epmcloud` variant answers 200. -/
def c3Fetch : String → HttpResp := fun url =>
  if url = "https://h/interop/rest/v2/files/list" then .resp 404 "Not Found" []
  else if url = "https://h/epmcloud/interop/rest/v2/files/list" then .resp 200 "OK" []
  else .exn "unreachable"

theorem c3_dualbase_resolution_witness :
    c3Fetch ("https://h" ++ "/interop/rest/v2/files/list") = .resp 404 "Not Found" []
      ∧ (http_get c3Fetch ("https://h" ++ "/epmcloud" ++ "/interop/rest/v2/files/list")).ok = true
      ∧ epm_get_dualbase c3Fetch "https://h" "/interop/rest/v2/files/list"
          = (.tagged (http_get c3Fetch ("https://h" ++ "/epmcloud" ++ "/interop/rest/v2/files/list"))
              "epmcloud_context",
             ["https://h" ++ "/interop/rest/v2/files/list",
              "https://h" ++ "/epmcloud" ++ "/interop/rest/v2/files/list"]) := by
  refine ⟨by rfl, by rfl, ?_⟩
  exact (c3_dualbase_resolution c3Fetch "https://h" "/interop/rest/v2/files/list").2.1
    "Not Found" [] (by rfl) (by rfl)

/-! ## Status tool operation validation (`epm_get_status`) -/

/-- Result of the `epm_get_status` tool: either the `INVALID_OPERATION`
refusal dict or the dual-base GET result. -/
inductive StatusToolOut where
  | invalidOperation
  | dual (r : DualResult)

/-- `epm_get_status` from `epm_mcp_readonly_dualbase.py`: strip and lowercase
the operation; refuse with `INVALID_OPERATION` if it is empty or contains
`/` or `..`; otherwise GET `/interop/rest/v2/status/<op>/<job_id>` through
dual-base resolution.  The second component is the list of URLs requested. -/
def epm_get_status (fetch : String → HttpResp) (baseUrl operation jobId : String) :
    StatusToolOut × List String :=
  let op := pyLower (pyStrip operation)
  if op = "" || pyIn "/" op || pyIn ".." op then (.invalidOperation, [])
  else
    let pr := epm_get_dualbase fetch baseUrl ("/interop/rest/v2/status/" ++ op ++ "/" ++ jobId)
    (.dual pr.1, pr.2)

theorem epm_get_dualbase_trace_head (fetch : String → HttpResp)
    (baseUrl interopPath : String) :
    (epm_get_dualbase fetch baseUrl interopPath).2.head?
      = some (baseUrl ++ interopPath) := by
  by_cases h1 : (http_get fetch (baseUrl ++ interopPath)).ok
  · simp [epm_get_dualbase, h1]
  · by_cases h2 : (http_get fetch (baseUrl ++ interopPath)).statusCode = some 404
    · by_cases h3 : (http_get fetch (baseUrl ++ "/epmcloud" ++ interopPath)).ok <;>
        simp [epm_get_dualbase, h1, h2, h3]
    · simp [epm_get_dualbase, h1, h2]

/-- C10: `epm_get_status` returns the `INVALID_OPERATION` refusal, issuing no
network request at all, exactly when the stripped lowercased operation is
empty or contains `/` or `..`; otherwise it performs the dual-base GET whose
first requested URL is `<base>/interop/rest/v2/status/<op>/<job_id>`. -/
theorem c10_status_operation_validation (fetch : String → HttpResp)
    (baseUrl operation jobId : String) :
    ((pyLower (pyStrip operation) = ""
        ∨ pyIn "/" (pyLower (pyStrip operation)) = true
        ∨ pyIn ".." (pyLower (pyStrip operation)) = true) →
      epm_get_status fetch baseUrl operation jobId = (.invalidOperation, []))
    ∧ (¬ (pyLower (pyStrip operation) = ""
        ∨ pyIn "/" (pyLower (pyStrip operation)) = true
        ∨ pyIn ".." (pyLower (pyStrip operation)) = true) →
      epm_get_status fetch baseUrl operation jobId
        = (.dual (epm_get_dualbase fetch baseUrl
              ("/interop/rest/v2/status/" ++ pyLower (pyStrip operation) ++ "/" ++ jobId)).1,
           (epm_get_dualbase fetch baseUrl
              ("/interop/rest/v2/status/" ++ pyLower (pyStrip operation) ++ "/" ++ jobId)).2)
        ∧ (epm_get_status fetch baseUrl operation jobId).2.head?
            = some (baseUrl ++ ("/interop/rest/v2/status/"
                ++ pyLower (pyStrip operation) ++ "/" ++ jobId))) := by
  constructor
  · intro h
    have hb : (pyLower (pyStrip operation) = "" || pyIn "/" (pyLower (pyStrip operation))
        || pyIn ".." (pyLower (pyStrip operation))) = true := by
      rcases h with h | h | h <;> simp [h]
    simp [epm_get_status, hb]
  · intro h
    push_neg at h
    obtain ⟨h1, h2, h3⟩ := h
    have hb : (pyLower (pyStrip operation) = "" || pyIn "/" (pyLower (pyStrip operation))
        || pyIn ".." (pyLower (pyStrip operation))) = false := by
      simp [h1, h2, h3]
    refine ⟨by simp [epm_get_status, hb], ?_⟩
    simp [epm_get_status, hb, epm_get_dualbase_trace_head]

theorem c10_status_operation_validation_witness :
    ¬ ((pyLower (pyStrip "  DownLoad ") = "")
        ∨ pyIn "/" (pyLower (pyStrip "  DownLoad ")) = true
        ∨ pyIn ".." (pyLower (pyStrip "  DownLoad ")) = true)
      ∧ ((pyLower (pyStrip "a/b") = "")
        ∨ pyIn "/" (pyLower (pyStrip "a/b")) = true
        ∨ pyIn ".." (pyLower (pyStrip "a/b")) = true)
      ∧ epm_get_status c3Fetch "https://h" "a/b" "77" = (.invalidOperation, [])
      ∧ (epm_get_status c3Fetch "https://h" "  DownLoad " "77").2.head?
          = some ("https://h" ++ ("/interop/rest/v2/status/" ++ "download" ++ "/" ++ "77")) := by
  have hneg : ¬ ((pyLower (pyStrip "  DownLoad ") = "")
      ∨ pyIn "/" (pyLower (pyStrip "  DownLoad ")) = true
      ∨ pyIn ".." (pyLower (pyStrip "  DownLoad ")) = true) := by decide
  have hpos : ((pyLower (pyStrip "a/b") = "")
      ∨ pyIn "/" (pyLower (pyStrip "a/b")) = true
      ∨ pyIn ".." (pyLower (pyStrip "a/b")) = true) := by decide
  refine ⟨hneg, hpos, ?_, ?_⟩
  · exact (c10_status_operation_validation c3Fetch "https://h" "a/b" "77").1 hpos
  · exact ((c10_status_operation_validation c3Fetch "https://h" "  DownLoad " "77").2 hneg).2

/-! ## OAuth token cache (`PBCS_MCP/pbcs_copilot_mcp_real.py`) -/

/-- `TokenCache`: the module-global mutable token/expiry pair.  Time is
modelled as integer seconds (`time.time()` passed in as `now`). -/
structure TokenCache where
  token : Option String
  expiresAt : Int
deriving DecidableEq

/-- `TokenCache.get`: the cached token if it is truthy and
`now < expires_at - 30`, else `None`. -/
def TokenCache.get (c : TokenCache) (now : Int) : Option String :=
  match c.token with
  | some t => if t ≠ "" ∧ now < c.expiresAt - 30 then some t else none
  | none => none

/-- `TokenCache.set`: store the token with expiry
`now + max(0, int(expires_in))`. -/
def TokenCache.set (c : TokenCache) (t : String) (expiresIn now : Int) : TokenCache :=
  { c with token := some t, expiresAt := now + max 0 expiresIn }

/-- Outcome of the token-issuing `requests.post` against the IDCS endpoint:
a raised `RequestException`, or a response with status code, optional
`access_token` field and optional `expires_in` field. -/
inductive IssuerResp where
  | exn (msg : String)
  | resp (status : Nat) (accessToken : Option String) (expiresIn : Option Int)
deriving DecidableEq

/-- The discriminated result of `get_oauth_token`. -/
inductive OauthResult where
  | cachedToken (t : String)
  | freshToken (t : String)
  | oauthNetworkError (msg : String)
  | oauthHttpError (status : Nat)
  | oauthBadResponse
deriving DecidableEq

/-- The check phase of `get_oauth_token`: read the cache
(`cached = _TOKEN_CACHE.get()`). -/
def acquireCheck (c : TokenCache) (now : Int) : Option String := c.get now

/-- The issue-and-store phase of `get_oauth_token`: POST to the issuer,
classify network errors, non-2xx statuses and missing/empty `access_token`;
on success store the token (`expires_in` defaulting to 3600) and return it.
The `Nat` counts issuance requests made (always 1 on this phase). -/
def acquireIssue (c : TokenCache) (now : Int) (issuer : IssuerResp) :
    OauthResult × TokenCache × Nat :=
  match issuer with
  | .exn m => (.oauthNetworkError m, c, 1)
  | .resp status tok expIn =>
      if 300 ≤ status then (.oauthHttpError status, c, 1)
      else
        match tok with
        | none => (.oauthBadResponse, c, 1)
        | some t =>
            if t = "" then (.oauthBadResponse, c, 1)
            else (.freshToken t, c.set t (expIn.getD 3600) now, 1)

/-- `get_oauth_token`: return the cached token when fresh, else run the
issue-and-store phase.  Returns the result, the cache state afterwards, and
the number of issuance requests made. -/
def get_oauth_token (c : TokenCache) (now : Int) (issuer : IssuerResp) :
    OauthResult × TokenCache × Nat :=
  match acquireCheck c now with
  | some t => (.cachedToken t, c, 0)
  | none => acquireIssue c now issuer

/-- C5: within the freshness window (`now < expiresAt - 30`, truthy token)
acquisition returns the cached token, leaves the cache unchanged and makes
no issuance request — so two back-to-back acquisitions both return the same
token with zero issuances; whenever the cached read misses, exactly one
issuance request is made; a successful issuance stores the new token with
expiry `now + expires_in`; a network failure or non-2xx response returns an
error and leaves the cache unchanged. -/
theorem c5_token_cache (c : TokenCache) (now now2 : Int)
    (issuer issuer2 : IssuerResp) :
    (∀ t, c.token = some t → t ≠ "" → now < c.expiresAt - 30 →
      get_oauth_token c now issuer = (.cachedToken t, c, 0))
    ∧ (c.get now = none → (get_oauth_token c now issuer).2.2 = 1)
    ∧ (∀ t expIn, c.get now = none → 0 ≤ expIn →
        issuer = .resp 200 (some t) (some expIn) → t ≠ "" →
        get_oauth_token c now issuer
          = (.freshToken t, { c with token := some t, expiresAt := now + expIn }, 1))
    ∧ (∀ m, c.get now = none → issuer = .exn m →
        get_oauth_token c now issuer = (.oauthNetworkError m, c, 1))
    ∧ (∀ status tok expIn, c.get now = none → issuer = .resp status tok expIn →
        300 ≤ status →
        get_oauth_token c now issuer = (.oauthHttpError status, c, 1))
    ∧ (∀ t, c.token = some t → t ≠ "" → now < c.expiresAt - 30 →
        now2 < c.expiresAt - 30 →
        get_oauth_token ((get_oauth_token c now issuer).2.1) now2 issuer2
          = (.cachedToken t, c, 0)) := by
  have hcached : ∀ t, c.token = some t → t ≠ "" → now < c.expiresAt - 30 →
      get_oauth_token c now issuer = (.cachedToken t, c, 0) := by
    intro t ht hne hlt
    simp [get_oauth_token, acquireCheck, TokenCache.get, ht, hne, hlt]
  refine ⟨hcached, ?_, ?_, ?_, ?_, ?_⟩
  · intro hmiss
    simp only [get_oauth_token, acquireCheck, hmiss]
    rcases issuer with m | ⟨status, tok, expIn⟩
    · simp [acquireIssue]
    · by_cases hs : 300 ≤ status
      · simp [acquireIssue, hs]
      · rcases tok with _ | t
        · simp [acquireIssue, hs]
        · by_cases hts : t = "" <;> simp [acquireIssue, hs, hts]
  · intro t expIn hmiss hnn hiss hne
    have : max 0 expIn = expIn := by omega
    simp [get_oauth_token, acquireCheck, hmiss, hiss, acquireIssue, hne,
      TokenCache.set, this]
  · intro m hmiss hiss
    simp [get_oauth_token, acquireCheck, hmiss, hiss, acquireIssue]
  · intro status tok expIn hmiss hiss hs
    simp [get_oauth_token, acquireCheck, hmiss, hiss, acquireIssue, hs]
  · intro t ht hne hlt hlt2
    rw [hcached t ht hne hlt]
    simp [get_oauth_token, acquireCheck, TokenCache.get, ht, hne, hlt2]

theorem c5_token_cache_witness :
    (TokenCache.mk (some "tok") 1000).token = some "tok"
      ∧ ("tok" : String) ≠ ""
      ∧ (100 : Int) < (TokenCache.mk (some "tok") 1000).expiresAt - 30
      ∧ (200 : Int) < (TokenCache.mk (some "tok") 1000).expiresAt - 30
      ∧ get_oauth_token (TokenCache.mk (some "tok") 1000) 100
          (.resp 200 (some "fresh") (some 3600))
          = (.cachedToken "tok", TokenCache.mk (some "tok") 1000, 0)
      ∧ get_oauth_token
          ((get_oauth_token (TokenCache.mk (some "tok") 1000) 100
              (.resp 200 (some "fresh") (some 3600))).2.1) 200
          (.exn "down")
          = (.cachedToken "tok", TokenCache.mk (some "tok") 1000, 0) := by
  refine ⟨rfl, by decide, by decide, by decide, ?_, ?_⟩
  · exact (c5_token_cache (TokenCache.mk (some "tok") 1000) 100 200
      (.resp 200 (some "fresh") (some 3600)) (.exn "down")).1 "tok" rfl
      (by decide) (by decide)
  · exact (c5_token_cache (TokenCache.mk (some "tok") 1000) 100 200
      (.resp 200 (some "fresh") (some 3600)) (.exn "down")).2.2.2.2.2 "tok" rfl
      (by decide) (by decide) (by decide)

/-- The unsynchronized interleaving the source permits: `get_oauth_token`
takes no lock, so a second caller can run the cache-read phase
(`_TOKEN_CACHE.get()`) after a first caller's read but before the first
caller's store.  Both callers start from the empty module-global cache;
returns the total number of issuance requests and the final cache state. -/
def raceTwoAcquires (now : Int) (issuer1 issuer2 : IssuerResp) :
    Nat × TokenCache :=
  let c0 : TokenCache := { token := none, expiresAt := 0 }
  let d1 := acquireCheck c0 now
  let d2 := acquireCheck c0 now
  let r1 := match d1 with
    | some t => ((OauthResult.cachedToken t : OauthResult), c0, 0)
    | none => acquireIssue c0 now issuer1
  let r2 := match d2 with
    | some t => ((OauthResult.cachedToken t : OauthResult), r1.2.1, 0)
    | none => acquireIssue r1.2.1 now issuer2
  (r1.2.2 + r2.2.2, r2.2.1)

/-- C9 (failing execution): with no mutual exclusion in the source, the
interleaving in which both acquirers read the empty cache before either
stores makes two issuance requests while the first is still in flight —
the duplicate issuance the claim says cannot happen. -/
theorem c9_race_duplicate_issuance :
    raceTwoAcquires 1000 (.resp 200 (some "tokA") (some 3600))
        (.resp 200 (some "tokB") (some 3600))
      = (2, { token := some "tokB", expiresAt := 1000 + 3600 }) := by
  decide

/-! ## Job lifecycle watching
(`PBCS_MCP/pbcs_mcp_readonly.py` and `PBCS_MCP/pbcs_copilot_mcp_real.py`) -/

/-- The fields of a successful `planning_get_job_status` result that the
watch loops read: the alias-chained `status` value and `percentComplete`. -/
structure StatusOk where
  status : Option String
  percent : Option Int
deriving DecidableEq

/-- Outcome of one `planning_get_job_status` call: `ok` with the status
snapshot, or any not-`ok` result (carrying a description of the failing
call, which the loop returns inside `POLL_FAILED`). -/
inductive StatusRes where
  | ok (s : StatusOk)
  | fail (detail : String)
deriving DecidableEq

/-- One entry of the `polls` audit list:
`{"ts": ..., "status": ..., "percentComplete": ...}`.  Time is modelled as
integer seconds since the loop start (`start = time.time()` is the origin and
HTTP calls take zero time), so `ts` is the elapsed time at that poll. -/
structure PollRecord where
  ts : Int
  status : Option String
  percent : Option Int
deriving DecidableEq

/-- `terminal` from the sources: case-insensitive membership of the status in
the five terminal values, with falsy statuses mapped to `""` first. -/
def terminal (status : Option String) : Bool :=
  let s := pyUpper (status.getD "")
  s = "SUCCEEDED" || s = "FAILED" || s = "ERROR" || s = "CANCELED"
    || s = "CANCELLED"

/-- Result of the polling loop shared by `planning_watch_job` and
`planning_run_job_and_wait`.  `fuelOut` is a model artifact for exhausted
recursion fuel (the Python loop is unbounded but exits by timeout). -/
inductive WatchOut where
  | pollFailed (detail : String)
  | timeout (polls : List PollRecord) (last : StatusOk)
  | done (polls : List PollRecord) (last : StatusOk)
  | fuelOut (polls : List PollRecord)
deriving DecidableEq

/-- The polling loop: poll (the `k`-th status call is `statusAt k`), bail out
on a failed poll, append a PollRecord, stop on a terminal status, return
`TIMEOUT` once elapsed time reaches `timeoutS`, else sleep
`max 1 intervalS` and repeat.  Also returns the number of status calls made
and the list of sleep durations performed. -/
def watchLoop (statusAt : Nat → StatusRes) (intervalS timeoutS : Int) :
    Nat → Nat → Int → List PollRecord → Nat → List Int →
    WatchOut × Nat × List Int
  | 0, _, _, polls, nPolls, sleeps => (.fuelOut polls, nPolls, sleeps)
  | fuel + 1, k, elapsed, polls, nPolls, sleeps =>
      match statusAt k with
      | .fail d => (.pollFailed d, nPolls + 1, sleeps)
      | .ok s =>
          let polls' := polls ++ [⟨elapsed, s.status, s.percent⟩]
          if terminal s.status then (.done polls' s, nPolls + 1, sleeps)
          else if timeoutS ≤ elapsed then (.timeout polls' s, nPolls + 1, sleeps)
          else
            watchLoop statusAt intervalS timeoutS fuel (k + 1)
              (elapsed + max 1 intervalS) polls' (nPolls + 1)
              (sleeps ++ [max 1 intervalS])

/-- Outcome of `planning_get_job_details` (opaque to the loop claims). -/
inductive DetailsRes where
  | ok (count : Nat)
  | fail (tag : String)
deriving DecidableEq

/-- Result of `planning_watch_job`: a failed watch returned as-is, or the
`ok` report with `finalStatus`, `pollCount`, the polls audit list and the
optional details result. -/
inductive WatchJobOut where
  | failed (w : WatchOut)
  | ok (finalStatus : Option String) (pollCount : Nat) (polls : List PollRecord)
      (details : Option DetailsRes)
deriving DecidableEq

/-- `planning_watch_job` from `pbcs_mcp_readonly.py`: run the polling loop;
on a terminal status build the `ok` report (fetching details if
`include_details`); otherwise return the loop failure.  Also returns the
status-call count and sleep list of the loop. -/
def planning_watch_job (statusAt : Nat → StatusRes) (det : DetailsRes)
    (intervalS timeoutS : Int) (includeDetails : Bool) (fuel : Nat) :
    WatchJobOut × Nat × List Int :=
  match watchLoop statusAt intervalS timeoutS fuel 0 0 [] 0 [] with
  | (.done polls last, n, sl) =>
      (.ok last.status polls.length polls
        (if includeDetails then some det else none), n, sl)
  | (w, n, sl) => (.failed w, n, sl)

/-- C6: if the first status poll returns a terminal status, `planning_watch_job`
returns the `ok` report immediately: exactly one PollRecord (taken at elapsed
time 0), that poll's status as `finalStatus`, one status call in total and an
empty sleep list — no sleep and no further poll ever happens. -/
theorem c6_watch_first_poll_terminal (statusAt : Nat → StatusRes)
    (det : DetailsRes) (intervalS timeoutS : Int) (includeDetails : Bool)
    (fuel : Nat) (s : StatusOk) (h0 : statusAt 0 = .ok s)
    (ht : terminal s.status = true) :
    planning_watch_job statusAt det intervalS timeoutS includeDetails (fuel + 1)
      = (.ok s.status 1 [⟨0, s.status, s.percent⟩]
           (if includeDetails then some det else none), 1, []) := by
  simp [planning_watch_job, watchLoop, h0, ht]

theorem c6_watch_first_poll_terminal_witness :
    (fun _ : Nat => StatusRes.ok ⟨some "SUCCEEDED", some 100⟩) 0
        = StatusRes.ok ⟨some "SUCCEEDED", some 100⟩
      ∧ terminal (some "SUCCEEDED") = true
      ∧ planning_watch_job (fun _ => .ok ⟨some "SUCCEEDED", some 100⟩)
          (.ok 0) 10 600 true 7
          = (.ok (some "SUCCEEDED") 1 [⟨0, some "SUCCEEDED", some 100⟩]
              (some (.ok 0)), 1, []) := by
  refine ⟨rfl, by decide, ?_⟩
  exact c6_watch_first_poll_terminal
    (fun _ => .ok ⟨some "SUCCEEDED", some 100⟩) (.ok 0) 10 600 true 6
    ⟨some "SUCCEEDED", some 100⟩ rfl (by decide)

/-! ## Job submission and the composed run-and-wait
(`PBCS_MCP/pbcs_copilot_mcp_real.py`) -/

/-- `job_id = p.get("jobId") or p.get("jobID") or p.get("id") or
p.get("jobIdentifier")` from `planning_execute_job`. -/
def extractJobId (p : List (String × JVal)) : JVal :=
  pyOrV (dictGet p "jobId")
    (pyOrV (dictGet p "jobID")
      (pyOrV (dictGet p "id") (dictGet p "jobIdentifier")))

/-- `status = p.get("status") or p.get("descriptiveStatus") or p.get("state")`. -/
def extractStatus (p : List (String × JVal)) : JVal :=
  pyOrV (dictGet p "status")
    (pyOrV (dictGet p "descriptiveStatus") (dictGet p "state"))

/-- Outcome of the POST issued by `planning_execute_job` (through
`pbcs_request`): any not-`ok` result, or `ok` with the parsed response
payload. -/
inductive PostRes where
  | fail (tag : String)
  | ok (payload : List (String × JVal))

/-- Result of `planning_execute_job`: a failure dict passed through, or the
`{"ok": True, "jobId": ..., "status": ..., "raw": ...}` dict. -/
inductive ExecOut where
  | failed (tag : String)
  | ok (jobId status : JVal) (raw : List (String × JVal))

/-- `planning_execute_job`: `precheck` models the outcome of
`enforce_client_key` / `allowlist_check` (`some tag` when either refuses);
then the POST, then alias extraction of `jobId` and `status`.  Note the
source returns `ok: True` even when no job-id field was found (`jobId` is
then `None`). -/
def planning_execute_job (precheck : Option String) (post : PostRes) : ExecOut :=
  match precheck with
  | some tag => .failed tag
  | none =>
      match post with
      | .fail tag => .failed tag
      | .ok p => .ok (extractJobId p) (extractStatus p) p

/-- Whether an `ExecOut` reports a successful submission (`"ok": True`). -/
def ExecOut.isOk : ExecOut → Bool
  | .ok _ _ _ => true
  | .failed _ => false

/-- Result of `planning_run_job_and_wait`. -/
inductive RunOut where
  | execFailed (tag : String)
  | noJobId
  | pollFailed (detail : String)
  | timedOut (polls : List PollRecord) (last : StatusOk)
  | outOfFuel (polls : List PollRecord)
  | success (finalStatus : Option String) (pollCount : Nat)
      (polls : List PollRecord) (details : DetailsRes)

/-- Whether a `RunOut` is the `ok: True` report (terminal status reached). -/
def RunOut.isSuccess : RunOut → Bool
  | .success _ _ _ _ => true
  | _ => false

/-- `planning_run_job_and_wait`: execute, bail out on a failed execution or a
falsy extracted job id (`NO_JOB_ID`), poll to terminal/timeout with the same
loop as `planning_watch_job`, and only after a terminal status fetch details
(best-effort) and build the summary report.  The `Bool` records whether
`planning_get_job_details` was invoked. -/
def planning_run_job_and_wait (precheck : Option String) (post : PostRes)
    (statusAt : Nat → StatusRes) (det : DetailsRes) (intervalS timeoutS : Int)
    (fuel : Nat) : RunOut × Bool :=
  match planning_execute_job precheck post with
  | .failed tag => (.execFailed tag, false)
  | .ok jobId _ _ =>
      if jtruthy jobId = false then (.noJobId, false)
      else
        match (watchLoop statusAt intervalS timeoutS fuel 0 0 [] 0 []).1 with
        | .pollFailed d => (.pollFailed d, false)
        | .timeout polls last => (.timedOut polls last, false)
        | .fuelOut polls => (.outOfFuel polls, false)
        | .done polls last => (.success last.status polls.length polls det, true)

theorem watchLoop_timeout_last (statusAt : Nat → StatusRes)
    (intervalS timeoutS : Int) :
    ∀ fuel k elapsed polls nPolls sleeps polls' last,
      (watchLoop statusAt intervalS timeoutS fuel k elapsed polls nPolls sleeps).1
          = .timeout polls' last →
      ∃ ts, polls'.getLast? = some ⟨ts, last.status, last.percent⟩ := by
  intro fuel
  induction fuel with
  | zero => intro k elapsed polls nPolls sleeps polls' last h; simp [watchLoop] at h
  | succ n ih =>
      intro k elapsed polls nPolls sleeps polls' last h
      rw [watchLoop] at h
      rcases hk : statusAt k with s | d
      case fail => simp [hk] at h
      case ok =>
        simp only [hk] at h
        by_cases hterm : terminal s.status
        · simp [hterm] at h
        · by_cases htime : timeoutS ≤ elapsed
          · simp [hterm, htime] at h
            obtain ⟨hp, hl⟩ := h
            refine ⟨elapsed, ?_⟩
            rw [← hp, ← hl]
            simp
          · simp only [hterm, htime, if_false] at h
            exact ih (k + 1) (elapsed + max 1 intervalS) _ _ _ polls' last h

theorem watchLoop_done_terminal (statusAt : Nat → StatusRes)
    (intervalS timeoutS : Int) :
    ∀ fuel k elapsed polls nPolls sleeps polls' last,
      (watchLoop statusAt intervalS timeoutS fuel k elapsed polls nPolls sleeps).1
          = .done polls' last →
      terminal last.status = true := by
  intro fuel
  induction fuel with
  | zero => intro k elapsed polls nPolls sleeps polls' last h; simp [watchLoop] at h
  | succ n ih =>
      intro k elapsed polls nPolls sleeps polls' last h
      rw [watchLoop] at h
      rcases hk : statusAt k with s | d
      case fail => simp [hk] at h
      case ok =>
        simp only [hk] at h
        by_cases hterm : terminal s.status
        · simp [hterm] at h
          obtain ⟨_, hl⟩ := h
          rw [← hl]; exact hterm
        · by_cases htime : timeoutS ≤ elapsed
          · simp [hterm, htime] at h
          · simp only [hterm, htime, if_false] at h
            exact ih (k + 1) (elapsed + max 1 intervalS) _ _ _ polls' last h

/-- C7: the composed run-and-wait fetches details exactly when the run
reaches the success report (the details flag equals `isSuccess`, so every
failure — failed submission, missing job id, failed poll, timeout — returns
with the details fetch never invoked); a failed execution is returned as that
failure; a timeout result carries the accumulated polls list whose final
record is the last status snapshot; and a success report's final status is a
terminal status. -/
theorem c7_run_and_wait_failures (precheck : Option String) (post : PostRes)
    (statusAt : Nat → StatusRes) (det : DetailsRes) (intervalS timeoutS : Int)
    (fuel : Nat) :
    ((planning_run_job_and_wait precheck post statusAt det intervalS timeoutS fuel).2
        = (planning_run_job_and_wait precheck post statusAt det intervalS timeoutS fuel).1.isSuccess)
    ∧ (∀ tag, planning_execute_job precheck post = .failed tag →
        planning_run_job_and_wait precheck post statusAt det intervalS timeoutS fuel
          = (.execFailed tag, false))
    ∧ (∀ polls last,
        (planning_run_job_and_wait precheck post statusAt det intervalS timeoutS fuel).1
            = .timedOut polls last →
        ∃ ts, polls.getLast? = some ⟨ts, last.status, last.percent⟩)
    ∧ (∀ fs pc polls d,
        (planning_run_job_and_wait precheck post statusAt det intervalS timeoutS fuel).1
            = .success fs pc polls d →
        terminal fs = true) := by
  refine ⟨?_, ?_, ?_, ?_⟩
  · rcases he : planning_execute_job precheck post with tag | ⟨jobId, st, raw⟩
    · simp [planning_run_job_and_wait, he, RunOut.isSuccess]
    · by_cases hj : jtruthy jobId = false
      · simp [planning_run_job_and_wait, he, hj, RunOut.isSuccess]
      · rcases hw : (watchLoop statusAt intervalS timeoutS fuel 0 0 [] 0 []).1
          with d | ⟨polls, last⟩ | ⟨polls, last⟩ | polls <;>
          simp [planning_run_job_and_wait, he, hj, hw, RunOut.isSuccess]
  · intro tag he
    simp [planning_run_job_and_wait, he]
  · intro polls last h
    rcases he : planning_execute_job precheck post with tag | ⟨jobId, st, raw⟩
    · simp [planning_run_job_and_wait, he] at h
    · by_cases hj : jtruthy jobId = false
      · simp [planning_run_job_and_wait, he, hj] at h
      · rcases hw : (watchLoop statusAt intervalS timeoutS fuel 0 0 [] 0 []).1
          with d | ⟨polls0, last0⟩ | ⟨polls0, last0⟩ | polls0 <;>
          simp [planning_run_job_and_wait, he, hj, hw] at h
        obtain ⟨hp, hl⟩ := h
        subst hp; subst hl
        exact watchLoop_timeout_last statusAt intervalS timeoutS fuel 0 0 [] 0 []
          polls0 last0 hw
  · intro fs pc polls d h
    rcases he : planning_execute_job precheck post with tag | ⟨jobId, st, raw⟩
    · simp [planning_run_job_and_wait, he] at h
    · by_cases hj : jtruthy jobId = false
      · simp [planning_run_job_and_wait, he, hj] at h
      · rcases hw : (watchLoop statusAt intervalS timeoutS fuel 0 0 [] 0 []).1
          with dd | ⟨polls0, last0⟩ | ⟨polls0, last0⟩ | polls0 <;>
          simp [planning_run_job_and_wait, he, hj, hw] at h
        obtain ⟨hfs, _, _, _⟩ := h
        subst hfs
        exact watchLoop_done_terminal statusAt intervalS timeoutS fuel 0 0 [] 0 []
          polls0 last0 hw

theorem c7_run_and_wait_failures_witness :
    planning_execute_job (some "JOB_NOT_ALLOWED") (.ok []) = .failed "JOB_NOT_ALLOWED"
      ∧ planning_run_job_and_wait (some "JOB_NOT_ALLOWED") (.ok [])
          (fun _ => .ok ⟨some "RUNNING", some 10⟩) (.ok 0) 5 900 3
          = (.execFailed "JOB_NOT_ALLOWED", false) := by
  refine ⟨rfl, ?_⟩
  exact (c7_run_and_wait_failures (some "JOB_NOT_ALLOWED") (.ok [])
    (fun _ => .ok ⟨some "RUNNING", some 10⟩) (.ok 0) 5 900 3).2.1
    "JOB_NOT_ALLOWED" rfl

/-- C8 counterexample: on a successful POST whose response contains none of
`jobId`, `jobID`, `id`, `jobIdentifier`, `planning_execute_job` still reports
a successful submission (`"ok": True`) with a `None` job id — it does not
fail. -/
theorem c8_counterexample_exec_ok_without_jobid :
    planning_execute_job none (.ok [("status", .str "SUBMITTED")])
        = .ok .null (.str "SUBMITTED") [("status", .str "SUBMITTED")]
      ∧ (planning_execute_job none (.ok [("status", .str "SUBMITTED")])).isOk
          = true := ⟨rfl, rfl⟩

/-- C8 (amended): `planning_execute_job` extracts the job id by trying
`jobId`, `jobID`, `id`, `jobIdentifier` in priority order (skipping falsy
values, as Python `or` does), but itself reports `ok: True` with a null
`jobId` when none is found; the failure for a missing job id is raised by
`planning_run_job_and_wait`, which returns `NO_JOB_ID` (and no success
report) whenever the extracted id is falsy. -/
theorem c8_jobid_alias_priority (p : List (String × JVal)) :
    (jtruthy (dictGet p "jobId") = true → extractJobId p = dictGet p "jobId")
    ∧ (jtruthy (dictGet p "jobId") = false → jtruthy (dictGet p "jobID") = true →
        extractJobId p = dictGet p "jobID")
    ∧ (jtruthy (dictGet p "jobId") = false → jtruthy (dictGet p "jobID") = false →
        jtruthy (dictGet p "id") = true → extractJobId p = dictGet p "id")
    ∧ (jtruthy (dictGet p "jobId") = false → jtruthy (dictGet p "jobID") = false →
        jtruthy (dictGet p "id") = false →
        extractJobId p = dictGet p "jobIdentifier")
    ∧ (planning_execute_job none (.ok p)
        = .ok (extractJobId p) (extractStatus p) p)
    ∧ (jtruthy (extractJobId p) = false →
        ∀ statusAt det intervalS timeoutS fuel,
          planning_run_job_and_wait none (.ok p) statusAt det intervalS
              timeoutS fuel
            = (.noJobId, false)) := by
  refine ⟨?_, ?_, ?_, ?_, rfl, ?_⟩
  · intro h1; simp [extractJobId, pyOrV, h1]
  · intro h1 h2; simp [extractJobId, pyOrV, h1, h2]
  · intro h1 h2 h3; simp [extractJobId, pyOrV, h1, h2, h3]
  · intro h1 h2 h3; simp [extractJobId, pyOrV, h1, h2, h3]
  · intro hfalsy statusAt det intervalS timeoutS fuel
    simp [planning_run_job_and_wait, planning_execute_job, hfalsy]

theorem c8_jobid_alias_priority_witness :
    jtruthy (dictGet [("jobID", JVal.str "42")] "jobId") = false
      ∧ jtruthy (dictGet [("jobID", JVal.str "42")] "jobID") = true
      ∧ extractJobId [("jobID", JVal.str "42")]
          = dictGet [("jobID", JVal.str "42")] "jobID"
      ∧ jtruthy (extractJobId [("status", JVal.str "SUBMITTED")]) = false
      ∧ planning_run_job_and_wait none (.ok [("status", JVal.str "SUBMITTED")])
          (fun _ => .ok ⟨some "RUNNING", some 10⟩) (.ok 0) 5 900 3
          = (.noJobId, false) := by
  refine ⟨rfl, rfl, ?_, rfl, ?_⟩
  · exact (c8_jobid_alias_priority [("jobID", JVal.str "42")]).2.1 rfl rfl
  · exact (c8_jobid_alias_priority [("status", JVal.str "SUBMITTED")]).2.2.2.2.2
      rfl (fun _ => .ok ⟨some "RUNNING", some 10⟩) (.ok 0) 5 900 3

/-! ## Claude tool-use orchestration loop
(`PBCS_MCP/orchestrator_claude_mcp_epm.py` inner loop; `ClaudeToolRunner.run`
in `EPM_Orchestrator/epm_orchestrator_gui.py` is line-identical except that
its final answer falls back to `"(no text returned)"` when the extracted
text is empty, modelled by `guiAnswer`). -/

/-- One content block of a conversation turn, after `blocks_to_dicts` /
the `tool_results` assembly. -/
inductive Block where
  | text (s : String)
  | toolUse (id name input : String)
  | toolResult (toolUseId content : String) (isError : Bool)
  | other (raw : String)
deriving DecidableEq

/-- A tool invocation request found in an assistant turn. -/
structure ToolUse where
  id : String
  name : String
  input : String
deriving DecidableEq

/-- One turn of the conversation history (`{"role": ..., "content": ...}`). -/
structure Turn where
  role : String
  content : List Block
deriving DecidableEq

/-- `tool_uses = [b for b in resp.content if b.type == "tool_use"]`. -/
def toolUsesOf (blocks : List Block) : List ToolUse :=
  blocks.filterMap fun b =>
    match b with
    | .toolUse i n inp => some ⟨i, n, inp⟩
    | _ => none

/-- `extract_text`: the `text` fields of all text blocks, non-empty ones
newline-joined, then stripped. -/
def extractText (blocks : List Block) : String :=
  pyStrip (String.intercalate "\n"
    ((blocks.filterMap fun b =>
        match b with
        | .text s => some s
        | _ => none).filter (fun p => p ≠ "")))

/-- The GUI runner's final answer:
`_extract_text(assistant_blocks) or "(no text returned)"`. -/
def guiAnswer (blocks : List Block) : String :=
  if extractText blocks = "" then "(no text returned)" else extractText blocks

/-- Dispatch of one tool invocation: `session.call_tool` (composed with
`mcp_result_to_text`) modelled as `callTool` returning either the result
text or the description of a raised exception; an exception is converted
in-band to a `tool_result` with content `"Tool error: <description>"` and
`is_error: True`. -/
def runTool (callTool : String → String → Except String String)
    (u : ToolUse) : Block :=
  match callTool u.name u.input with
  | .ok txt => .toolResult u.id txt false
  | .error e => .toolResult u.id ("Tool error: " ++ e) true

/-- Result of one iteration of the tool-use loop: the final answer (loop
exits) or the extended history to continue with. -/
inductive StepOut where
  | final (answer : String) (history : List Turn)
  | next (history : List Turn)
deriving DecidableEq

/-- One iteration of the orchestrator loop body: append the assistant turn;
if it holds no tool-use block, exit with the extracted text; otherwise run
every tool use in order and append one user turn holding the tool results. -/
def loopStep (callTool : String → String → Except String String)
    (history : List Turn) (blocks : List Block) : StepOut :=
  let h1 := history ++ [Turn.mk "assistant" blocks]
  let uses := toolUsesOf blocks
  if uses.isEmpty then .final (extractText blocks) h1
  else .next (h1 ++ [Turn.mk "user" (uses.map (runTool callTool))])

/-- The full loop: `complete` is the completion service
(`anthropic.messages.create` on the current history), iterated with fuel
(the source loop is unbounded; `none` models exhausted fuel). -/
def runLoop (complete : List Turn → List Block)
    (callTool : String → String → Except String String) :
    Nat → List Turn → Option (String × List Turn)
  | 0, _ => none
  | n + 1, history =>
      match loopStep callTool history (complete history) with
      | .final a h => some (a, h)
      | .next h => runLoop complete callTool n h

/-- The `tool_use_id` key of a `tool_result` block. -/
def blockToolUseId : Block → Option String
  | .toolResult i _ _ => some i
  | _ => none

/-- Whether a block is a `tool_result` block. -/
def Block.isToolResult : Block → Bool
  | .toolResult _ _ _ => true
  | _ => false

theorem runTool_toolUseId (callTool : String → String → Except String String)
    (u : ToolUse) : blockToolUseId (runTool callTool u) = some u.id := by
  cases h : callTool u.name u.input <;> simp [runTool, h, blockToolUseId]

theorem runTool_isToolResult (callTool : String → String → Except String String)
    (u : ToolUse) : (runTool callTool u).isToolResult = true := by
  cases h : callTool u.name u.input <;> simp [runTool, h, Block.isToolResult]

/-- C1: when the assistant turn holds tool-use blocks, the loop iteration
appends exactly the assistant turn and one user-role turn whose content is
one `tool_result` block per tool-use request, in request order, with
`tool_use_id`s equal to the request ids (a 1:1 in-order id mapping); when it
holds none, only the assistant turn is appended and the loop returns the
concatenated text (the GUI runner substitutes a placeholder only when that
text is empty). -/
theorem c1_loop_turn_correspondence
    (callTool : String → String → Except String String)
    (complete : List Turn → List Block) (history : List Turn)
    (blocks : List Block) (n : Nat) :
    (toolUsesOf blocks = [] →
      loopStep callTool history blocks
        = .final (extractText blocks) (history ++ [Turn.mk "assistant" blocks]))
    ∧ (toolUsesOf blocks ≠ [] →
      loopStep callTool history blocks
        = .next (history ++ [Turn.mk "assistant" blocks,
            Turn.mk "user" ((toolUsesOf blocks).map (runTool callTool))])
      ∧ ((toolUsesOf blocks).map (runTool callTool)).map blockToolUseId
          = (toolUsesOf blocks).map (fun u => some u.id)
      ∧ ∀ b ∈ (toolUsesOf blocks).map (runTool callTool), b.isToolResult = true)
    ∧ (toolUsesOf (complete history) = [] →
      runLoop complete callTool (n + 1) history
        = some (extractText (complete history),
            history ++ [Turn.mk "assistant" (complete history)]))
    ∧ (extractText blocks ≠ "" → guiAnswer blocks = extractText blocks) := by
  refine ⟨?_, ?_, ?_, ?_⟩
  · intro h
    simp [loopStep, h]
  · intro h
    have hne : (toolUsesOf blocks).isEmpty = false := by
      simpa [List.isEmpty_iff] using h
    refine ⟨by simp [loopStep, hne], ?_, ?_⟩
    · rw [List.map_map]
      exact List.map_congr_left fun u _ => runTool_toolUseId callTool u
    · intro b hb
      obtain ⟨u, _, hu⟩ := List.mem_map.mp hb
      rw [← hu]
      exact runTool_isToolResult callTool u
  · intro h
    simp [runLoop, loopStep, h]
  · intro h
    simp [guiAnswer, h]

theorem c1_loop_turn_correspondence_witness :
    toolUsesOf [Block.text "hi", Block.toolUse "t1" "epm_list_files" "{}"] ≠ []
      ∧ loopStep (fun _ _ => .ok "files") []
            [Block.text "hi", Block.toolUse "t1" "epm_list_files" "{}"]
          = .next [Turn.mk "assistant"
                [Block.text "hi", Block.toolUse "t1" "epm_list_files" "{}"],
              Turn.mk "user" [Block.toolResult "t1" "files" false]] := by
  refine ⟨by decide, ?_⟩
  have h := ((c1_loop_turn_correspondence (fun _ _ => .ok "files")
    (fun _ => []) [] [Block.text "hi", Block.toolUse "t1" "epm_list_files" "{}"]
    0).2.1 (by decide)).1
  simpa [toolUsesOf, runTool] using h

/-- C2: a tool invocation that raises is converted, in place, into a
`tool_result` block whose content is `"Tool error: "` followed by the
exception description, with `is_error` set; and the loop iteration still
appends the user turn and continues (it never aborts the conversation on a
tool failure). -/
theorem c2_tool_error_inband
    (callTool : String → String → Except String String) (u : ToolUse)
    (e : String) (herr : callTool u.name u.input = .error e) :
    runTool callTool u = .toolResult u.id ("Tool error: " ++ e) true
    ∧ (∀ (blocks : List Block) (i : Nat), (toolUsesOf blocks)[i]? = some u →
        ((toolUsesOf blocks).map (runTool callTool))[i]?
          = some (Block.toolResult u.id ("Tool error: " ++ e) true))
    ∧ (∀ history blocks, toolUsesOf blocks ≠ [] →
        loopStep callTool history blocks
          = .next (history ++ [Turn.mk "assistant" blocks,
              Turn.mk "user" ((toolUsesOf blocks).map (runTool callTool))])) := by
  have hrun : runTool callTool u = .toolResult u.id ("Tool error: " ++ e) true := by
    simp [runTool, herr]
  refine ⟨hrun, ?_, ?_⟩
  · intro blocks i hi
    rw [List.getElem?_map, hi]
    simp [hrun]
  · intro history blocks h
    have hne : (toolUsesOf blocks).isEmpty = false := by
      simpa [List.isEmpty_iff] using h
    simp [loopStep, hne]

theorem c2_tool_error_inband_witness :
    ((fun n _ => if n = "boom" then Except.error "ConnectionError"
        else Except.ok "res") : String → String → Except String String)
        "boom" "{}" = .error "ConnectionError"
      ∧ runTool (fun n _ => if n = "boom" then .error "ConnectionError"
            else .ok "res") ⟨"t9", "boom", "{}"⟩
          = .toolResult "t9" ("Tool error: " ++ "ConnectionError") true := by
  refine ⟨rfl, ?_⟩
  exact (c2_tool_error_inband
    (fun n _ => if n = "boom" then .error "ConnectionError" else .ok "res")
    ⟨"t9", "boom", "{}"⟩ "ConnectionError" rfl).1
